import Mathlib

/-
  Verification development for the bdsoil farm-advisory application
  (src/main.py).  The Python source is shallowly embedded: pure helper
  functions become Lean functions over List Char / String, the SQLite
  tables become explicit record lists, and the network-backed geocoding
  paths become functions of an explicit provider-outcome argument.
  Machine floats that only ever hold small decimal literals are
  modelled as rationals.
-/

namespace BDSoil

/-- Python str.lower restricted to the ASCII data used by the app,
modelled with Char.toLower on the underlying character list. -/
def lower (l : List Char) : List Char := l.map Char.toLower

/-- Boolean prefix test on character lists (avoids library dependence). -/
def leadsWith : List Char → List Char → Bool
  | [], _ => true
  | _ :: _, [] => false
  | a :: as, b :: bs => a == b && leadsWith as bs

/-- Python substring containment needle in hay on character lists. -/
def containsSub (needle : List Char) : List Char → Bool
  | [] => needle.isEmpty
  | c :: t => leadsWith needle (c :: t) || containsSub needle t

/-- The ASCII character class of the Python regex whitespace \s and of
str.strip with no argument (space, tab, newline, return, vertical tab,
form feed). -/
def isPySpace (c : Char) : Bool :=
  c == ' ' || c == '\t' || c == '\n' || c == '\r' ||
  c == Char.ofNat 11 || c == Char.ofNat 12

/-- Python str.strip(): remove leading and trailing whitespace. -/
def strip (s : String) : String :=
  ⟨((s.data.dropWhile isPySpace).reverse.dropWhile isPySpace).reverse⟩

/-- IrrigationService.recommend_irrigation (src/main.py lines 245-249):
a chained conditional expression. -/
def recommend_irrigation (crop_name water_availability : String) : String :=
  if water_availability = "Low" then "Drip irrigation, consider mulching"
  else if containsSub "Rice".data crop_name.data then "Flood irrigation, 5-10cm depth"
  else if water_availability = "High" then "Sprinkler irrigation"
  else "Furrow irrigation, every 7-10 days"

/-- The literal dict mapping 1,2,3 to the fixed strings used in
MainWindow.ordinal_suffix (src/main.py line 1094). -/
def ordinalDict : List (Nat × String) := [(1, "1st"), (2, "2nd"), (3, "3rd")]

/-- MainWindow.ordinal_suffix (src/main.py lines 1091-1094).  Note the
dict holds the fixed strings 1st, 2nd, 3rd regardless of n. -/
def ordinal_suffix (n : Nat) : String :=
  if 11 ≤ n % 100 ∧ n % 100 ≤ 13 then toString n ++ "th"
  else match ordinalDict.lookup (n % 10) with
    | some s => s
    | none => toString n ++ "th"

/-
  LandDialog.is_valid_gps (src/main.py lines 693-695) is the regex
  fullmatch of  [-+]? d* .? d+ , \s* [-+]? d* .? d+  (d a digit).
  The numeric part  d* .? d+  denotes the language
  digits+ | digits* dot digits+ ; because a digit or a dot can never
  also match the following comma or the end of the string, the
  backtracking regex match is equivalent to the deterministic scan
  below: take maximal digits, optionally a dot followed by a nonempty
  maximal digit run.  The character classes are used here at ASCII,
  which covers every string the claims mention.
-/

/-- Scan of the regex piece  d* .? d+  : returns the unconsumed rest,
or none when no match is possible at this position. -/
def matchMantissa (cs : List Char) : Option (List Char) :=
  let d1 := cs.takeWhile Char.isDigit
  match cs.dropWhile Char.isDigit with
  | c :: r2 =>
      if c == '.' then
        if r2.takeWhile Char.isDigit = [] then
          (if d1 = [] then none else some (c :: r2))
        else some (r2.dropWhile Char.isDigit)
      else if d1 = [] then none else some (c :: r2)
  | [] => if d1 = [] then none else some []

/-- The optional sign [-+]? of the coordinate regex. -/
def dropSign (l : List Char) : List Char :=
  match l with
  | [] => []
  | c :: t => if c == '-' || c == '+' then t else c :: t

/-- One signed number of the coordinate regex. -/
def matchNum (cs : List Char) : Option (List Char) := matchMantissa (dropSign cs)

/-- List-level body of is_valid_gps: full match of number, comma,
optional whitespace, number. -/
def validGpsL (l : List Char) : Bool :=
  match matchNum l with
  | some (c :: r) =>
      if c == ',' then
        match matchNum (r.dropWhile isPySpace) with
        | some [] => true
        | _ => false
      else false
  | _ => false

/-- LandDialog.is_valid_gps (src/main.py lines 693-695). -/
def is_valid_gps (s : String) : Bool := validGpsL s.data

/-- Shape of a digit run of the coordinate grammar. -/
def IsDigitRun (l : List Char) : Prop := l ≠ [] ∧ ∀ c ∈ l, c.isDigit = true

/-- Shape of the optional sign of the coordinate grammar. -/
def IsSignOpt (l : List Char) : Prop := l = [] ∨ l = ['-'] ∨ l = ['+']

/-- Shape of the unsigned part of a coordinate number: a digit run, or
optional digits then a dot then a nonempty digit run. -/
def IsBody (l : List Char) : Prop :=
  IsDigitRun l ∨
  ∃ d1 d2, (∀ c ∈ d1, c.isDigit = true) ∧ IsDigitRun d2 ∧ l = d1 ++ '.' :: d2

/-- Shape of one signed decimal literal of the coordinate grammar. -/
def IsNumLit (l : List Char) : Prop :=
  ∃ sgn body, IsSignOpt sgn ∧ IsBody body ∧ l = sgn ++ body

/-- The debounce-timer command issued by the GPS text-change handler. -/
inductive TimerAction
  | start (ms : Nat)
  | stop
  deriving DecidableEq

/-- Effect of LandDialog.on_gps_changed (src/main.py lines 685-691):
the fetch button enablement and the timer command. -/
structure GpsEditEffect where
  fetchEnabled : Bool
  timer : TimerAction
  deriving DecidableEq

/-- LandDialog.on_gps_changed (src/main.py lines 685-691). -/
def on_gps_changed (text : String) : GpsEditEffect :=
  let valid := is_valid_gps (strip text)
  ⟨valid, if valid then TimerAction.start 800 else TimerAction.stop⟩

/-- One crop entry of the CropService in-memory catalog
(src/main.py lines 186-190). -/
structure CropInfo where
  season : String
  soil_type : String
  yield_per_hectare : ℚ
  water_need : String
  deriving DecidableEq

/-- The filtered-and-projected list comprehension inside
CropService.recommend_crop (src/main.py line 200): names of crops whose
soil type equals the query (case-insensitive) and whose season contains
the query season (case-insensitive substring). -/
def crop_matches (crops : List (String × CropInfo)) (soil_type season : String) :
    List String :=
  (crops.filter fun ci =>
      (lower ci.2.soil_type.data == lower soil_type.data) &&
      containsSub (lower season.data) (lower ci.2.season.data)).map Prod.fst

/-- CropService.recommend_crop (src/main.py lines 199-200); the Python
x or y idiom turns an empty match list into the sentinel. -/
def recommend_crop (crops : List (String × CropInfo)) (soil_type season : String) :
    List String :=
  match crop_matches crops soil_type season with
  | [] => ["No suitable crops"]
  | l => l

/-- MarketService.market_prices (src/main.py lines 253-258). -/
def market_prices : List (String × ℚ) :=
  [("Rice (Aman)", 30000), ("Rice (Boro)", 35000), ("Rice (Aus)", 28000),
   ("Wheat", 32000), ("Jute", 40000), ("Maize", 25000), ("Potato", 20000),
   ("Onion", 30000), ("Garlic", 60000), ("Tomato", 25000), ("Chili", 50000),
   ("Banana", 20000), ("Mango", 40000)]

/-- The fixed per-crop cost dict of
MainWindow.generate_profit_loss_chart (src/main.py line 1438). -/
def crop_costs : List (String × ℚ) :=
  [("Rice (Aman)", 5000), ("Rice (Boro)", 6000), ("Wheat", 4000),
   ("Maize", 3000), ("Tomato", 2500)]

/-- Python dict.get(key, 0) on the market price table. -/
def marketPrice (c : String) : ℚ := ((market_prices.lookup c).getD 0)

/-- Python dict.get(key, 0) on the assumed cost table. -/
def assumedCost (c : String) : ℚ := ((crop_costs.lookup c).getD 0)

/-- One row of the lands table (src/main.py lines 74-84).  The insert
path can pass None for gps_coords, hence the Option. -/
structure LandRow where
  id : Nat
  user_id : Nat
  location : String
  area : ℚ
  soil_type : String
  gps_coords : Option String
  deriving DecidableEq

/-- The lands table with its AUTOINCREMENT counter. -/
structure LandsTable where
  rows : List LandRow
  nextId : Nat
  deriving DecidableEq

def emptyLands : LandsTable := ⟨[], 1⟩

/-- The soil-match test of the profit chart (src/main.py line 1433):
some land of the user has the soil type of the crop, case-insensitive
(a land tuple field 4 is its soil type). -/
def soilMatches (lands : List LandRow) (info : CropInfo) : Bool :=
  lands.any fun l => lower l.soil_type.data == lower info.soil_type.data

/-- The candidate crops of MainWindow.generate_profit_loss_chart
(src/main.py lines 1432-1433). -/
def profit_candidates (crops : List (String × CropInfo)) (lands : List LandRow) :
    List (String × CropInfo) :=
  crops.filter fun c => soilMatches lands c.2

/-- The profit series of MainWindow.generate_profit_loss_chart
(src/main.py lines 1438-1440):
market price times yield per hectare minus assumed cost, with both
dict lookups defaulting to 0; yield_data carries every candidate, so
its get is the yield of the candidate itself. -/
def profit_list (crops : List (String × CropInfo)) (lands : List LandRow) : List ℚ :=
  (profit_candidates crops lands).map fun c =>
    marketPrice c.1 * c.2.yield_per_hectare - assumedCost c.1

/-- The lands schema of init_db (src/main.py line 81) declares
gps_coords TEXT NOT NULL. -/
def lands_gps_not_null : Bool := true

/-- SQLite INSERT INTO lands (src/main.py lines 770-773), enforcing the
NOT NULL constraint the schema declares on gps_coords. -/
def insertLand (t : LandsTable) (user_id : Nat) (loc : String) (area : ℚ)
    (soil : String) (gps : Option String) : Except String LandsTable :=
  if lands_gps_not_null && gps.isNone then
    Except.error "NOT NULL constraint failed: lands.gps_coords"
  else
    Except.ok ⟨t.rows ++ [⟨t.nextId, user_id, loc, area, soil, gps⟩], t.nextId + 1⟩

/-- Outcome of LandDialog.save_land as seen by the user. -/
inductive SaveOutcome
  | validationError (msg : String)
  | dbError (msg : String)
  | success
  deriving DecidableEq

/-- LandDialog.save_land (src/main.py lines 750-780).  The float
parsing of the area text is abstracted to its result: none models a
raised ValueError, some a the parsed value.  An empty stripped GPS
string is inserted as None (the gps or None idiom of line 772). -/
def save_land (user_id : Nat) (locText : String) (areaVal : Option ℚ)
    (soil gpsText : String) (t : LandsTable) : SaveOutcome × LandsTable :=
  let loc := strip locText
  if loc = "" then (SaveOutcome.validationError "Location required.", t)
  else
    match areaVal with
    | none => (SaveOutcome.validationError "Area must be positive.", t)
    | some area =>
      if area ≤ 0 then (SaveOutcome.validationError "Area must be positive.", t)
      else
        let gps := strip gpsText
        if gps ≠ "" ∧ is_valid_gps gps = false then
          (SaveOutcome.validationError "Invalid GPS format.", t)
        else
          match insertLand t user_id loc area soil
              (if gps = "" then none else some gps) with
          | Except.ok t2 => (SaveOutcome.success, t2)
          | Except.error e => (SaveOutcome.dbError e, t)

/-
  Geocoding models.  Network calls are functions of an explicit
  provider-outcome argument; everything after the call is embedded from
  the source.
-/

/-- Value of a digit list read in base 10 (for the float conversion of
validated coordinate text). -/
def digitsVal (l : List Char) : Nat :=
  l.foldl (fun a c => a * 10 + (c.toNat - 48)) 0

/-- Python float() restricted to the plain decimal literals that the
coordinate regex admits (sign, digits, optional dot): exponents and the
named floats are unreachable behind the is_valid_gps guard. -/
def parseUnsigned (cs : List Char) : Option ℚ :=
  let d1 := cs.takeWhile Char.isDigit
  let r1 := cs.dropWhile Char.isDigit
  match r1 with
  | [] => if d1 = [] then none else some (digitsVal d1)
  | '.' :: r2 =>
      let d2 := r2.takeWhile Char.isDigit
      if r2.dropWhile Char.isDigit = [] ∧ (d1 ≠ [] ∨ d2 ≠ []) then
        some ((digitsVal d1 : ℚ) + (digitsVal d2 : ℚ) / (10 ^ d2.length : ℚ))
      else none
  | _ => none

def parseFloatQ (cs : List Char) : Option ℚ :=
  match cs with
  | '-' :: t => (parseUnsigned t).map Neg.neg
  | '+' :: t => parseUnsigned t
  | _ => parseUnsigned cs

/-- Both ends of Python str.strip() on a character list. -/
def stripL (l : List Char) : List Char :=
  ((l.dropWhile isPySpace).reverse.dropWhile isPySpace).reverse

/-- The lat, lng = map(float, [p.strip() for p in txt.split(comma)])
line of LandDialog.fetch_from_gps (src/main.py line 705); none models
the raised ValueError. -/
def parseGpsPair (cs : List Char) : Option (ℚ × ℚ) :=
  let a := cs.takeWhile fun c => !(c == ',')
  let b := (cs.dropWhile fun c => !(c == ',')).drop 1
  match parseFloatQ (stripL a), parseFloatQ (stripL b) with
  | some x, some y => some (x, y)
  | _, _ => none

/-- Result of the geolocator.reverse network call: a located address,
a None result, or a raised exception (timeout or service error). -/
inductive ReverseOutcome
  | located (address : String)
  | notFound
  | failure (msg : String)

/-- User-visible effect of LandDialog.fetch_from_gps: nothing, the
location field set to an address, the location field set to the
coordinate pair itself, or a warning dialog. -/
inductive FetchEffect
  | noAction
  | locationSet (addr : String)
  | coordFallback (lat lng : ℚ)
  | errorShown (msg : String)
  deriving DecidableEq

/-- LandDialog.fetch_from_gps (src/main.py lines 697-714).  The try
block parses the pair, calls the provider (outcome argument), and on a
located result or a None result sets the location; any exception inside
the block reaches the except clause, which shows a warning dialog. -/
def fetch_from_gps (gpsFieldText : String) (hasGeolocator : Bool)
    (outcome : ReverseOutcome) : FetchEffect :=
  let txt := strip gpsFieldText
  if is_valid_gps txt = false ∨ hasGeolocator = false then FetchEffect.noAction
  else
    match parseGpsPair txt.data with
    | none => FetchEffect.errorShown "Geocode failed:\ncould not convert string to float"
    | some (lat, lng) =>
      match outcome with
      | ReverseOutcome.located a => FetchEffect.locationSet a
      | ReverseOutcome.notFound => FetchEffect.coordFallback lat lng
      | ReverseOutcome.failure m => FetchEffect.errorShown ("Geocode failed:\n" ++ m)

/-- Response of the first forward-geocoding provider (ipapi), as
consumed by src/main.py lines 720-724: HTTP status and the fields read
from the JSON body. -/
structure IpApiResponse where
  status_code : Nat
  latitude : Option ℚ
  longitude : Option ℚ
  city : String
  region : String
  country_name : String
  deriving DecidableEq

/-- Decision taken on the first provider inside
LandDialog.fetch_current_location: use its result and return, or fall
through to the second provider. -/
inductive FirstProviderStep
  | useFirst (lat lng : ℚ) (address : String)
  | fallThrough
  deriving DecidableEq

/-- Python truthiness of the value read from the JSON: None is falsy
and so is the number 0. -/
def truthyNum : Option ℚ → Bool
  | none => false
  | some q => decide (q ≠ 0)

/-- Python str.strip(chars) on both ends for the set of characters of
the string comma-space. -/
def stripCommaSpace (s : String) : String :=
  let p := fun c => c == ',' || c == ' '
  ⟨((s.data.dropWhile p).reverse.dropWhile p).reverse⟩

/-- The first-provider handling of LandDialog.fetch_current_location
(src/main.py lines 719-730): none models a raised request exception;
with a response, only status 200 with truthy latitude and longitude
uses the first provider; every other case falls through to the second
request.  The address shown is the joined city, region, country_name
stripped of surrounding comma-space (line 724). -/
def handle_first_provider (r : Option IpApiResponse) : FirstProviderStep :=
  match r with
  | none => FirstProviderStep.fallThrough
  | some d =>
    if d.status_code = 200 then
      if truthyNum d.latitude && truthyNum d.longitude then
        FirstProviderStep.useFirst (d.latitude.getD 0) (d.longitude.getD 0)
          (stripCommaSpace (d.city ++ ", " ++ d.region ++ ", " ++ d.country_name))
      else FirstProviderStep.fallThrough
    else FirstProviderStep.fallThrough

/-
  User table and the authenticated delete flow.
  The sha256 hexdigest of hash_password (src/main.py lines 3-4) is an
  uninterpreted function parameter of the model.
-/

/-- verify_password (src/main.py lines 6-7): recompute the hash of the
supplied plaintext and compare with the stored hash. -/
def verify_password (hash : String → String) (stored provided : String) : Bool :=
  stored == hash provided

/-- One row of the users table, restricted to the columns the delete
flow reads. -/
structure UserRow where
  id : Nat
  password : String
  deriving DecidableEq

/-- The persistent store: users and lands tables. -/
structure Db where
  users : List UserRow
  lands : LandsTable
  deriving DecidableEq

/-- SELECT password FROM users WHERE id = ? (src/main.py line 1117). -/
def lookupUserPassword (db : Db) (uid : Nat) : Option String :=
  (db.users.find? fun u => u.id == uid).map UserRow.password

/-- Outcome of MainWindow.confirm_delete_land as seen by the user. -/
inductive DeleteOutcome
  | cancelled
  | accessDenied
  | deleted
  | notFound
  deriving DecidableEq

/-- MainWindow.confirm_delete_land from the password dialog on
(src/main.py lines 1106-1139): an empty password aborts silently; a
missing user row or a hash mismatch shows Access Denied; otherwise
DELETE FROM lands WHERE id = ? AND user_id = ? runs, and a zero
rowcount is reported as Not Found. -/
def confirm_delete_land (hash : String → String) (db : Db)
    (user_id land_id : Nat) (password : String) : DeleteOutcome × Db :=
  if password = "" then (DeleteOutcome.cancelled, db)
  else
    match lookupUserPassword db user_id with
    | none => (DeleteOutcome.accessDenied, db)
    | some stored =>
      if verify_password hash stored password = false then
        (DeleteOutcome.accessDenied, db)
      else
        let remaining := db.lands.rows.filter fun r =>
          !(r.id == land_id && r.user_id == user_id)
        if remaining.length < db.lands.rows.length then
          (DeleteOutcome.deleted, { db with lands := { db.lands with rows := remaining } })
        else (DeleteOutcome.notFound, db)

/-- MainWindow.view_lands listing query (src/main.py lines 1028-1030):
the rows of the user ordered by id. -/
def view_lands (db : Db) (uid : Nat) : List LandRow :=
  (db.lands.rows.filter fun r => r.user_id == uid).mergeSort fun a b => a.id ≤ b.id

/-
  Helper lemmas.
-/

theorem takeWhile_append_all (p : Char → Bool) (l r : List Char)
    (h : ∀ c ∈ l, p c = true) : (l ++ r).takeWhile p = l ++ r.takeWhile p := by
  induction l with
  | nil => simp
  | cons a t ih =>
    have ha : p a = true := h a (List.mem_cons_self a t)
    simp only [List.cons_append, List.takeWhile_cons, ha, if_true]
    exact congrArg (a :: ·) (ih fun c hc => h c (List.mem_cons_of_mem a hc))

theorem dropWhile_append_all (p : Char → Bool) (l r : List Char)
    (h : ∀ c ∈ l, p c = true) : (l ++ r).dropWhile p = r.dropWhile p := by
  induction l with
  | nil => simp
  | cons a t ih =>
    have ha : p a = true := h a (List.mem_cons_self a t)
    simp only [List.cons_append, List.dropWhile_cons, ha, if_true]
    exact ih fun c hc => h c (List.mem_cons_of_mem a hc)

theorem takeWhile_head_false (p : Char → Bool) (l : List Char)
    (h : l = [] ∨ ∃ c t, l = c :: t ∧ p c = false) : l.takeWhile p = [] := by
  rcases h with h | ⟨c, t, rfl, hc⟩
  · simp [h]
  · simp [List.takeWhile_cons, hc]

theorem dropWhile_head_false (p : Char → Bool) (l : List Char)
    (h : l = [] ∨ ∃ c t, l = c :: t ∧ p c = false) : l.dropWhile p = l := by
  rcases h with h | ⟨c, t, rfl, hc⟩
  · simp [h]
  · simp [List.dropWhile_cons, hc]

theorem isPySpace_false_of_isDigit (c : Char) (h : c.isDigit = true) :
    isPySpace c = false := by
  cases hc : isPySpace c with
  | false => rfl
  | true =>
    exfalso
    simp only [isPySpace, Bool.or_eq_true, beq_iff_eq] at hc
    rcases hc with ((((rfl | rfl) | rfl) | rfl) | rfl) | rfl <;> exact absurd h (by decide)

theorem sign_false_of_isDigit (c : Char) (h : c.isDigit = true) :
    (c == '-' || c == '+') = false := by
  cases hc : (c == '-' || c == '+') with
  | false => rfl
  | true =>
    exfalso
    simp only [Bool.or_eq_true, beq_iff_eq] at hc
    rcases hc with rfl | rfl <;> exact absurd h (by decide)

/-- Head shape of the unsigned part: a digit or the dot. -/
theorem body_head (body : List Char) (hb : IsBody body) :
    ∃ c t, body = c :: t ∧ (c.isDigit = true ∨ c = '.') := by
  rcases hb with ⟨hne, hall⟩ | ⟨d1, d2, h1, h2, rfl⟩
  · rcases body with _ | ⟨c, t⟩
    · exact absurd rfl hne
    · exact ⟨c, t, rfl, Or.inl (hall c (List.mem_cons_self c t))⟩
  · rcases d1 with _ | ⟨c, t⟩
    · exact ⟨'.', d2, rfl, Or.inr rfl⟩
    · exact ⟨c, t ++ '.' :: d2, by simp, Or.inl (h1 c (List.mem_cons_self c t))⟩

/-- Head shape of a signed literal: never whitespace. -/
theorem numLit_head (l : List Char) (h : IsNumLit l) :
    ∃ c t, l = c :: t ∧ isPySpace c = false := by
  rcases h with ⟨sgn, body, hs, hb, rfl⟩
  rcases hs with rfl | rfl | rfl
  · obtain ⟨c, t, rfl, hc⟩ := body_head body hb
    refine ⟨c, t, by simp, ?_⟩
    rcases hc with hc | rfl
    · exact isPySpace_false_of_isDigit c hc
    · decide
  · exact ⟨'-', body, rfl, by decide⟩
  · exact ⟨'+', body, rfl, by decide⟩

/-- The regex number matcher consumes exactly a literal when the
following character is neither a digit nor a dot. -/
theorem matchNum_lit_append (sgn body rest : List Char) (hs : IsSignOpt sgn)
    (hb : IsBody body)
    (hr : rest = [] ∨ ∃ c t, rest = c :: t ∧ c.isDigit = false ∧ (c == '.') = false) :
    matchNum (sgn ++ body ++ rest) = some rest := by
  have hdrop : dropSign (sgn ++ body ++ rest) = body ++ rest := by
    rcases hs with rfl | rfl | rfl
    · obtain ⟨c, t, rfl, hc⟩ := body_head body hb
      have hcs : (c == '-' || c == '+') = false := by
        rcases hc with hc | rfl
        · exact sign_false_of_isDigit c hc
        · decide
      simp [dropSign, hcs]
    · rfl
    · rfl
  unfold matchNum
  rw [hdrop]
  rcases hb with ⟨hne, hall⟩ | ⟨d1, d2, h1, ⟨h2ne, h2all⟩, rfl⟩
  · have htake : (body ++ rest).takeWhile Char.isDigit = body := by
      rw [takeWhile_append_all Char.isDigit body rest hall,
        takeWhile_head_false Char.isDigit rest ?_, List.append_nil]
      rcases hr with rfl | ⟨c, t, rfl, hc, _⟩
      · exact Or.inl rfl
      · exact Or.inr ⟨c, t, rfl, hc⟩
    have hdropw : (body ++ rest).dropWhile Char.isDigit = rest := by
      rw [dropWhile_append_all Char.isDigit body rest hall]
      exact dropWhile_head_false Char.isDigit rest (by
        rcases hr with rfl | ⟨c, t, rfl, hc, _⟩
        · exact Or.inl rfl
        · exact Or.inr ⟨c, t, rfl, hc⟩)
    unfold matchMantissa
    rw [htake, hdropw]
    rcases hr with rfl | ⟨c, t, rfl, hc, hdot⟩
    · simp [hne]
    · simp [hdot, hne]
  · have hassoc : (d1 ++ '.' :: d2) ++ rest = d1 ++ '.' :: (d2 ++ rest) := by simp
    rw [hassoc]
    have htake : (d1 ++ '.' :: (d2 ++ rest)).takeWhile Char.isDigit = d1 := by
      rw [takeWhile_append_all Char.isDigit d1 _ h1,
        takeWhile_head_false Char.isDigit _ (Or.inr ⟨'.', d2 ++ rest, rfl, by decide⟩),
        List.append_nil]
    have hdropw : (d1 ++ '.' :: (d2 ++ rest)).dropWhile Char.isDigit = '.' :: (d2 ++ rest) := by
      rw [dropWhile_append_all Char.isDigit d1 _ h1]
      exact dropWhile_head_false Char.isDigit _ (Or.inr ⟨'.', d2 ++ rest, rfl, by decide⟩)
    have htake2 : (d2 ++ rest).takeWhile Char.isDigit = d2 := by
      rw [takeWhile_append_all Char.isDigit d2 rest h2all,
        takeWhile_head_false Char.isDigit rest ?_, List.append_nil]
      rcases hr with rfl | ⟨c, t, rfl, hc, _⟩
      · exact Or.inl rfl
      · exact Or.inr ⟨c, t, rfl, hc⟩
    have hdropw2 : (d2 ++ rest).dropWhile Char.isDigit = rest := by
      rw [dropWhile_append_all Char.isDigit d2 rest h2all]
      exact dropWhile_head_false Char.isDigit rest (by
        rcases hr with rfl | ⟨c, t, rfl, hc, _⟩
        · exact Or.inl rfl
        · exact Or.inr ⟨c, t, rfl, hc⟩)
    unfold matchMantissa
    rw [hdropw]
    simp [htake2, hdropw2, h2ne]

/-- Any two signed decimal literals joined by a comma and optional
whitespace pass the coordinate validator. -/
theorem validGpsL_pair (s1 ws s2 : List Char) (h1 : IsNumLit s1) (h2 : IsNumLit s2)
    (hws : ∀ c ∈ ws, isPySpace c = true) :
    validGpsL (s1 ++ ',' :: (ws ++ s2)) = true := by
  obtain ⟨sgn1, body1, hs1, hb1, rfl⟩ := h1
  have hm1 : matchNum ((sgn1 ++ body1) ++ ',' :: (ws ++ s2)) = some (',' :: (ws ++ s2)) := by
    have h := matchNum_lit_append sgn1 body1 (',' :: (ws ++ s2)) hs1 hb1
      (Or.inr ⟨',', ws ++ s2, rfl, by decide, by decide⟩)
    simpa [List.append_assoc] using h
  have hdropws : (ws ++ s2).dropWhile isPySpace = s2 := by
    rw [dropWhile_append_all isPySpace ws s2 hws]
    obtain ⟨c, t, rfl, hc⟩ := numLit_head s2 h2
    exact dropWhile_head_false isPySpace _ (Or.inr ⟨c, t, rfl, hc⟩)
  have hm2 : matchNum s2 = some [] := by
    obtain ⟨sgn2, body2, hs2, hb2, rfl⟩ := h2
    have := matchNum_lit_append sgn2 body2 [] hs2 hb2 (Or.inl rfl)
    simpa using this
  unfold validGpsL
  rw [hm1]
  simp only [beq_self_eq_true, if_true, hdropws, hm2]

/-
  Claim theorems.
-/

/-- Claim C4: irrigation advice follows the fixed priority order: Low
water gives drip advice; otherwise a crop containing Rice gives flood
advice; otherwise High water gives sprinkler advice; otherwise furrow;
in particular a Rice crop with Low water gets drip advice, not flood
advice. -/
theorem C4_irrigation_priority (crop w : String) :
    (w = "Low" →
      recommend_irrigation crop w = "Drip irrigation, consider mulching") ∧
    (w ≠ "Low" → containsSub "Rice".data crop.data = true →
      recommend_irrigation crop w = "Flood irrigation, 5-10cm depth") ∧
    (w ≠ "Low" → containsSub "Rice".data crop.data = false → w = "High" →
      recommend_irrigation crop w = "Sprinkler irrigation") ∧
    (w ≠ "Low" → containsSub "Rice".data crop.data = false → w ≠ "High" →
      recommend_irrigation crop w = "Furrow irrigation, every 7-10 days") ∧
    (containsSub "Rice".data crop.data = true → w = "Low" →
      recommend_irrigation crop w = "Drip irrigation, consider mulching") := by
  refine ⟨?_, ?_, ?_, ?_, ?_⟩ <;> intros <;> simp [recommend_irrigation, *]

theorem C4_witness :
    recommend_irrigation "Rice (Aman)" "Low" = "Drip irrigation, consider mulching" :=
  (C4_irrigation_priority "Rice (Aman)" "Low").2.2.2.2 (by decide) rfl

/-- Claim C8: the ordinal labels the code produces at positions
1, 2, 3, 4, 11, 12, 13 and 21.  The teens rule does take precedence,
but position 21 is mapped to the fixed dict string 1st, not to 21st as
the claim states: the dict of ordinal_suffix holds the constant
strings 1st, 2nd, 3rd whatever the position is. -/
theorem C8_ordinal_values :
    ordinal_suffix 1 = "1st" ∧ ordinal_suffix 2 = "2nd" ∧
    ordinal_suffix 3 = "3rd" ∧ ordinal_suffix 4 = "4th" ∧
    ordinal_suffix 11 = "11th" ∧ ordinal_suffix 12 = "12th" ∧
    ordinal_suffix 13 = "13th" ∧ ordinal_suffix 21 = "1st" ∧
    ordinal_suffix 21 ≠ "21st" := by
  refine ⟨rfl, rfl, rfl, rfl, rfl, rfl, rfl, rfl, ?_⟩
  decide

/-- Claim C7: the coordinate validator accepts the two sample pairs,
rejects the three sample non-pairs, and the fetch action is disabled
whenever the current text is invalid. -/
theorem C7_gps_validation :
    is_valid_gps "23.8103, 90.4125" = true ∧
    is_valid_gps "-23.8,90.4" = true ∧
    is_valid_gps "23.8" = false ∧
    is_valid_gps "abc,90" = false ∧
    is_valid_gps "" = false ∧
    ∀ text : String, is_valid_gps (strip text) = false →
      (on_gps_changed text).fetchEnabled = false := by
  refine ⟨by decide, by decide, by decide, by decide, by decide, ?_⟩
  intro text h
  simp [on_gps_changed, h]

theorem C7_witness : (on_gps_changed "abc,90").fetchEnabled = false :=
  C7_gps_validation.2.2.2.2.2 "abc,90" (by decide)

/-- Claim C2: the claim says a land create with an empty GPS string
succeeds and stores a null GPS value; but the schema of init_db
declares gps_coords TEXT NOT NULL, so the insert of None performed by
save_land raises an integrity error and the create fails, leaving the
table unchanged. -/
theorem C2_empty_gps_insert_fails :
    save_land 7 "Dhaka" (some 1) "Clay Loam" "" emptyLands =
      (SaveOutcome.dbError "NOT NULL constraint failed: lands.gps_coords",
       emptyLands) := by
  decide

/-- Claim C10: a first-provider response with latitude or longitude
equal to 0 fails the truthiness test, so resolution falls through to
the second provider even on HTTP status 200. -/
theorem C10_zero_coordinate_falls_through (d : IpApiResponse)
    (hstatus : d.status_code = 200)
    (hzero : d.latitude = some 0 ∨ d.longitude = some 0) :
    handle_first_provider (some d) = FirstProviderStep.fallThrough := by
  rcases hzero with hz | hz <;>
    simp [handle_first_provider, hstatus, truthyNum, hz]

theorem C10_witness :
    handle_first_provider (some ⟨200, some 0, some 90, "Accra", "Greater Accra", "Ghana"⟩) =
      FirstProviderStep.fallThrough :=
  C10_zero_coordinate_falls_through ⟨200, some 0, some 90, "Accra", "Greater Accra", "Ghana"⟩
    rfl (Or.inl rfl)

/-- Claim C3 is refuted: when the reverse-geocode provider raises (for
example a timeout), fetch_from_gps reaches the except clause, which
shows an error dialog; the coordinate pair is not used as the address
on this path. -/
theorem C3_counterexample :
    fetch_from_gps "23.8, 90.4" true (ReverseOutcome.failure "timed out") =
      FetchEffect.errorShown "Geocode failed:\ntimed out" ∧
    fetch_from_gps "23.8, 90.4" true (ReverseOutcome.failure "timed out") ≠
      FetchEffect.coordFallback (119/5) (452/5) := by
  constructor
  · rfl
  · intro h
    exact FetchEffect.noConfusion h

/-- Claim C3 as amended: on provider exception or timeout the call is
abandoned without retry and a warning dialog reporting the failure is
shown, the location field being left alone; the coordinate pair is
used verbatim as the fallback address only when the provider returns
no result without raising; a located result populates the field. -/
theorem C3_amended_reverse_geocode (txt m : String) (lat lng : ℚ)
    (hvalid : is_valid_gps (strip txt) = true)
    (hparse : parseGpsPair (strip txt).data = some (lat, lng)) :
    fetch_from_gps txt true (ReverseOutcome.failure m) =
      FetchEffect.errorShown ("Geocode failed:\n" ++ m) ∧
    fetch_from_gps txt true ReverseOutcome.notFound =
      FetchEffect.coordFallback lat lng ∧
    ∀ a, fetch_from_gps txt true (ReverseOutcome.located a) =
      FetchEffect.locationSet a := by
  refine ⟨?_, ?_, ?_⟩ <;>
    simp [fetch_from_gps, hvalid, hparse]

theorem C3_witness :
    fetch_from_gps "23, 90" true (ReverseOutcome.failure "timed out") =
      FetchEffect.errorShown "Geocode failed:\ntimed out" :=
  (C3_amended_reverse_geocode "23, 90" "timed out" ((23:ℕ):ℚ) ((90:ℕ):ℚ)
    (by decide) rfl).1

/-- Claim C1: recommend_crop returns exactly the crops whose stored
soil type equals the query soil type case-insensitively and whose
stored season contains the query season as a case-insensitive
substring; an empty qualifying set yields the single sentinel entry,
so the result is never empty. -/
theorem C1_recommend_crop_exact (crops : List (String × CropInfo))
    (soil season : String) :
    (crop_matches crops soil season = [] →
      recommend_crop crops soil season = ["No suitable crops"]) ∧
    (crop_matches crops soil season ≠ [] →
      recommend_crop crops soil season = crop_matches crops soil season) ∧
    (∀ name, name ∈ crop_matches crops soil season ↔
      ∃ info, (name, info) ∈ crops ∧
        lower info.soil_type.data = lower soil.data ∧
        containsSub (lower season.data) (lower info.season.data) = true) ∧
    recommend_crop crops soil season ≠ [] := by
  refine ⟨?_, ?_, ?_, ?_⟩
  · intro h
    simp [recommend_crop, h]
  · intro h
    unfold recommend_crop
    cases hm : crop_matches crops soil season with
    | nil => exact absurd hm h
    | cons a t => rfl
  · intro name
    unfold crop_matches
    constructor
    · intro h
      obtain ⟨⟨n, info⟩, hmem, hn⟩ := List.mem_map.mp h
      obtain ⟨hin, hp⟩ := List.mem_filter.mp hmem
      rw [Bool.and_eq_true, beq_iff_eq] at hp
      cases hn
      exact ⟨info, hin, hp.1, hp.2⟩
    · rintro ⟨info, hin, hsoil, hseason⟩
      refine List.mem_map.mpr ⟨(name, info), List.mem_filter.mpr ⟨hin, ?_⟩, rfl⟩
      rw [Bool.and_eq_true, beq_iff_eq]
      exact ⟨hsoil, hseason⟩
  · unfold recommend_crop
    cases hm : crop_matches crops soil season with
    | nil => simp
    | cons a t => simp

theorem C1_witness :
    recommend_crop [("Boro", ⟨"Rabi (Winter)", "Clay", 5, "Medium"⟩)] "Loam" "Winter" =
      ["No suitable crops"] :=
  (C1_recommend_crop_exact [("Boro", ⟨"Rabi (Winter)", "Clay", 5, "Medium"⟩)]
    "Loam" "Winter").1 (by decide)

/-- Claim C5: each profit entry is the market price times the yield per
hectare minus the assumed cost, the cost lookup defaulting to 0 for
crops outside the fixed cost table; a crop with price 30000, yield 5
and cost 5000 yields exactly 145000. -/
theorem C5_profit_formula :
    (∀ c : String, (∀ q : ℚ, (c, q) ∈ crop_costs → False) → assumedCost c = 0) ∧
    (∀ (crops : List (String × CropInfo)) (lands : List LandRow),
      profit_list crops lands = (profit_candidates crops lands).map fun p =>
        marketPrice p.1 * p.2.yield_per_hectare - assumedCost p.1) ∧
    marketPrice "Rice (Aman)" = 30000 ∧ assumedCost "Rice (Aman)" = 5000 ∧
    profit_list [("Rice (Aman)", ⟨"Kharif (Monsoon)", "Clay Loam", 5, "High"⟩)]
      [⟨1, 1, "Dhaka", 1, "Clay Loam", none⟩] = [145000] := by
  refine ⟨?_, fun crops lands => rfl, by decide, by decide, ?_⟩
  · intro c h
    unfold assumedCost
    have : crop_costs.lookup c = none := by
      have : ∀ l : List (String × ℚ), (∀ q : ℚ, (c, q) ∈ l → False) →
          l.lookup c = none := by
        intro l
        induction l with
        | nil => intro _; rfl
        | cons p t ih =>
          intro hl
          obtain ⟨k, v⟩ := p
          by_cases hk : c = k
          · exact absurd (by rw [hk]; exact List.mem_cons_self (k, v) t)
              (fun hm => hl v hm)
          · simpa [List.lookup, beq_eq_false_iff_ne.mpr hk] using
              ih fun q hq => hl q (List.mem_cons_of_mem (k, v) hq)
      exact this crop_costs h
    rw [this]
    rfl
  · have h : profit_list [("Rice (Aman)", ⟨"Kharif (Monsoon)", "Clay Loam", 5, "High"⟩)]
        [⟨1, 1, "Dhaka", 1, "Clay Loam", none⟩] =
        [marketPrice "Rice (Aman)" * 5 - assumedCost "Rice (Aman)"] := rfl
    have h1 : marketPrice "Rice (Aman)" = 30000 := by decide
    have h2 : assumedCost "Rice (Aman)" = 5000 := by decide
    rw [h, h1, h2]
    norm_num

theorem C5_witness : assumedCost "Banana" = 0 :=
  C5_profit_formula.1 "Banana" (by
    intro q hq
    simp only [crop_costs, List.mem_cons, List.not_mem_nil, or_false,
      Prod.mk.injEq] at hq
    rcases hq with ⟨h, _⟩ | ⟨h, _⟩ | ⟨h, _⟩ | ⟨h, _⟩ | ⟨h, _⟩ <;> exact absurd h (by decide))

/-- Claim C9: the validator imposes no range bound: every pair of
signed decimal literals separated by a comma and optional whitespace
validates, including out-of-range values such as 999, 999 and literals
with no integer part such as .5,.5; and any valid GPS text is stored
verbatim by the land-creation path. -/
theorem C9_no_range_bound :
    (∀ s1 ws s2 : List Char, IsNumLit s1 → IsNumLit s2 →
      (∀ c ∈ ws, isPySpace c = true) →
      validGpsL (s1 ++ ',' :: (ws ++ s2)) = true) ∧
    is_valid_gps "999, 999" = true ∧
    is_valid_gps ".5,.5" = true ∧
    (∀ (uid : Nat) (loc : String) (area : ℚ) (soil gpsText : String) (t : LandsTable),
      strip loc ≠ "" → 0 < area → is_valid_gps (strip gpsText) = true →
      save_land uid loc (some area) soil gpsText t =
        (SaveOutcome.success,
         ⟨t.rows ++ [⟨t.nextId, uid, strip loc, area, soil, some (strip gpsText)⟩],
          t.nextId + 1⟩)) := by
  refine ⟨validGpsL_pair, by decide, by decide, ?_⟩
  intro uid loc area soil gpsText t hloc harea hvalid
  have hne : strip gpsText ≠ "" := by
    intro h
    rw [h] at hvalid
    exact absurd hvalid (by decide)
  have harea2 : ¬ area ≤ 0 := not_le.mpr harea
  simp [save_land, insertLand, lands_gps_not_null, hloc, hne, hvalid, harea2]

theorem C9_witness :
    validGpsL ("999".data ++ ',' :: (" ".data ++ "999".data)) = true ∧
    save_land 7 "Dhaka" (some 1) "Loam" ".5,.5" emptyLands =
      (SaveOutcome.success,
       ⟨emptyLands.rows ++
          [⟨emptyLands.nextId, 7, strip "Dhaka", 1, "Loam", some (strip ".5,.5")⟩],
        emptyLands.nextId + 1⟩) :=
  ⟨C9_no_range_bound.1 "999".data " ".data "999".data
      ⟨[], ['9', '9', '9'], Or.inl rfl, Or.inl ⟨by decide, by decide⟩, rfl⟩
      ⟨[], ['9', '9', '9'], Or.inl rfl, Or.inl ⟨by decide, by decide⟩, rfl⟩
      (by decide),
   C9_no_range_bound.2.2.2 7 "Dhaka" 1 "Loam" ".5,.5" emptyLands
      (by decide) (by decide) (by decide)⟩

/-- The rows after a delete attempt: either unchanged or the
id-and-owner scoped filter. -/
theorem confirm_delete_rows_cases (hash : String → String) (db : Db)
    (U L : Nat) (pw : String) :
    (confirm_delete_land hash db U L pw).2.lands.rows = db.lands.rows ∨
    (confirm_delete_land hash db U L pw).2.lands.rows =
      db.lands.rows.filter (fun r => !(r.id == L && r.user_id == U)) := by
  unfold confirm_delete_land
  split
  · exact Or.inl rfl
  · split
    · exact Or.inl rfl
    · split
      · exact Or.inl rfl
      · dsimp only
        split
        · exact Or.inr rfl
        · exact Or.inl rfl

/-- Delete attempt when the stored hash does not match. -/
theorem confirm_delete_authfail (hash : String → String) (db : Db)
    (U L : Nat) (pw h : String) (hpw : pw ≠ "")
    (hlook : lookupUserPassword db U = some h) (hne : h ≠ hash pw) :
    confirm_delete_land hash db U L pw = (DeleteOutcome.accessDenied, db) := by
  unfold confirm_delete_land
  rw [if_neg hpw]
  simp only [hlook]
  rw [if_pos]
  exact beq_eq_false_iff_ne.mpr hne

/-- Delete attempt with the matching hash and an actually deleted row. -/
theorem confirm_delete_success_eq (hash : String → String) (db : Db)
    (U L : Nat) (pw : String) (hpw : pw ≠ "")
    (hlook : lookupUserPassword db U = some (hash pw))
    (hlt : (db.lands.rows.filter
        (fun r => !(r.id == L && r.user_id == U))).length < db.lands.rows.length) :
    confirm_delete_land hash db U L pw =
      (DeleteOutcome.deleted,
       ⟨db.users,
        ⟨db.lands.rows.filter (fun r => !(r.id == L && r.user_id == U)),
         db.lands.nextId⟩⟩) := by
  unfold confirm_delete_land
  rw [if_neg hpw]
  simp only [hlook]
  rw [if_neg (by simp [verify_password])]
  rw [if_pos hlt]

/-- Delete attempt with the matching hash and a zero rowcount. -/
theorem confirm_delete_notfound_eq (hash : String → String) (db : Db)
    (U L : Nat) (pw : String) (hpw : pw ≠ "")
    (hlook : lookupUserPassword db U = some (hash pw))
    (hnlt : ¬ (db.lands.rows.filter
        (fun r => !(r.id == L && r.user_id == U))).length < db.lands.rows.length) :
    confirm_delete_land hash db U L pw = (DeleteOutcome.notFound, db) := by
  unfold confirm_delete_land
  rw [if_neg hpw]
  simp only [hlook]
  rw [if_neg (by simp [verify_password])]
  rw [if_neg hnlt]

/-- Claim C6: the delete-land flow with a supplied password: a hash
mismatch gives the access-denied outcome and no mutation; with the
correct password, an owned land with the given id is deleted and no
longer appears in the listing of the owner, while a missing or
foreign id gives the not-found outcome, distinct from access denied,
with no mutation; the delete statement is scoped to both the land id
and the owner id, so rows of other users always survive. -/
theorem C6_delete_land (hash : String → String) (db : Db) (U L : Nat)
    (pw : String) (hpw : pw ≠ "") :
    (∀ h, lookupUserPassword db U = some h → h ≠ hash pw →
      confirm_delete_land hash db U L pw = (DeleteOutcome.accessDenied, db)) ∧
    (lookupUserPassword db U = some (hash pw) →
      ((∃ r ∈ db.lands.rows, r.id = L ∧ r.user_id = U) →
        (confirm_delete_land hash db U L pw).1 = DeleteOutcome.deleted ∧
        (confirm_delete_land hash db U L pw).2.lands.rows =
          db.lands.rows.filter (fun r => !(r.id == L && r.user_id == U)) ∧
        (∀ r ∈ view_lands (confirm_delete_land hash db U L pw).2 U, r.id ≠ L)) ∧
      ((∀ r ∈ db.lands.rows, ¬(r.id = L ∧ r.user_id = U)) →
        confirm_delete_land hash db U L pw = (DeleteOutcome.notFound, db))) ∧
    (∀ r ∈ db.lands.rows, r.user_id ≠ U →
      r ∈ (confirm_delete_land hash db U L pw).2.lands.rows) ∧
    DeleteOutcome.notFound ≠ DeleteOutcome.accessDenied := by
  refine ⟨?_, ?_, ?_, by decide⟩
  · intro h hlook hne
    exact confirm_delete_authfail hash db U L pw h hpw hlook hne
  · intro hlook
    constructor
    · rintro ⟨r, hr, hid, hu⟩
      have hlt : (db.lands.rows.filter
          (fun r => !(r.id == L && r.user_id == U))).length < db.lands.rows.length := by
        refine List.length_filter_lt_length_iff_exists.mpr ⟨r, hr, ?_⟩
        simp [hid, hu]
      have heq := confirm_delete_success_eq hash db U L pw hpw hlook hlt
      refine ⟨by rw [heq], by rw [heq], ?_⟩
      · intro x hx
        have hx2 := List.mem_filter.mp (List.mem_mergeSort.mp hx)
        obtain ⟨hxr, hxu⟩ := hx2
        rw [heq] at hxr
        have hp := (List.mem_filter.mp hxr).2
        rw [Bool.not_eq_eq_eq_not, Bool.not_true, Bool.and_eq_false_iff] at hp
        rcases hp with hp | hp
        · exact fun he => absurd (beq_iff_eq.mpr he) (by rw [hp]; exact Bool.false_ne_true)
        · exact absurd hxu (by rw [hp]; exact Bool.false_ne_true)
    · intro hnone
      have hall : ∀ a ∈ db.lands.rows,
          (fun r => !(r.id == L && r.user_id == U)) a = true := by
        intro a ha
        have hna := hnone a ha
        by_cases hid : a.id = L
        · by_cases hu : a.user_id = U
          · exact absurd ⟨hid, hu⟩ hna
          · simp [hu]
        · simp [hid]
      have heq : db.lands.rows.filter (fun r => !(r.id == L && r.user_id == U)) =
          db.lands.rows := List.filter_eq_self.mpr hall
      exact confirm_delete_notfound_eq hash db U L pw hpw hlook
        (by rw [heq]; exact lt_irrefl _)
  · intro r hr hru
    rcases confirm_delete_rows_cases hash db U L pw with hc | hc
    · rw [hc]; exact hr
    · rw [hc]
      refine List.mem_filter.mpr ⟨hr, ?_⟩
      simp [hru]

theorem C6_witness :
    (confirm_delete_land id ⟨[⟨1, "pw"⟩], ⟨[⟨1, 1, "Dhaka", 1, "Loam", none⟩], 2⟩⟩
      1 1 "pw").1 = DeleteOutcome.deleted :=
  (((C6_delete_land id ⟨[⟨1, "pw"⟩], ⟨[⟨1, 1, "Dhaka", 1, "Loam", none⟩], 2⟩⟩
      1 1 "pw" (by decide)).2.1 rfl).1
    ⟨⟨1, 1, "Dhaka", 1, "Loam", none⟩, by decide, rfl, rfl⟩).1

end BDSoil
